import Mathlib

/-!
Shallow embedding of the deterministic book-data generator in
`src/backend/src/server.ts` (class `BookDataGenerator` and the
`/api/books` handler), together with theorems checking the
specification claims against it.

The third-party `faker` random source is external to the repository;
the spec (section 4.1) treats it as an abstract seeded random
capability.  We model it as explicit state passing: a `FakerState`
carries the last seed set by `faker.seed` plus a position in the
stream, and every primitive draw is a pure function of that state
which advances the position by one step.  The primitive value
functions are collected in a `FakerEnv` parameter, so every theorem
below holds for every implementation of the random capability that
satisfies the contract of section 4.1 (uniform draws lie in the
half-open unit interval, integer draws respect their bounds, picks
return valid positions).
-/

namespace TestBookStore

/-- State of the mutable `faker` stream: the seed most recently passed to
`faker.seed`, and how many primitive draws have happened since. -/
structure FakerState where
  seed : Int
  counter : Nat
deriving DecidableEq, Repr

/-- Advance the stream by one primitive draw. -/
def bump (st : FakerState) : FakerState :=
  FakerState.mk st.seed (st.counter + 1)

/-- Modelled from the spec: the abstract seeded random capability of
section 4.1 (`faker` is a third-party collaborator, not part of this
repository).  Each field gives the value of one primitive draw as a pure
function of the current stream state; the propositional fields are the
contract stated in the spec (uniform values lie in the half-open unit
interval, bounded integer draws respect their bounds, a pick from a
sequence of length n returns a position below n). -/
structure FakerEnv where
  nextFloat : Int → Nat → ℚ
  nextInt : Int → Nat → Int → Int → Int
  pickIdx : Int → Nat → Nat → Nat
  fullName : Int → Nat → String
  companyName : Int → Nat → String
  username : Int → Nat → String
  adjective : Int → Nat → String
  noun : Int → Nat → String
  dateBetween : Int → Nat → String → String → Int
  getFullYear : Int → Int
  toLocaleDateString : Int → String → String
  nextFloat_nonneg : ∀ s c, 0 ≤ nextFloat s c
  nextFloat_lt_one : ∀ s c, nextFloat s c < 1
  nextInt_lower : ∀ s c lo hi, lo ≤ hi → lo ≤ nextInt s c lo hi
  nextInt_upper : ∀ s c lo hi, lo ≤ hi → nextInt s c lo hi ≤ hi
  pickIdx_lt : ∀ s c n, 0 < n → pickIdx s c n < n

/-- Model of `faker.seed(s)`: the stream is reset to a state that depends
only on the integer argument. -/
def fakerSeed (s : Int) : FakerState :=
  FakerState.mk s 0

/-- Model of `faker.number.float(min 0, max 1)`: one uniform draw. -/
def drawFloat (env : FakerEnv) (st : FakerState) : ℚ × FakerState :=
  (env.nextFloat st.seed st.counter, bump st)

/-- Model of `faker.number.int(min, max)`. -/
def drawInt (env : FakerEnv) (lo hi : Int) (st : FakerState) : Int × FakerState :=
  (env.nextInt st.seed st.counter lo hi, bump st)

/-- Model of `faker.helpers.arrayElement`: pick a position below the
length of the list and return that element (the default is never used on
a nonempty list, by the `pickIdx_lt` contract). -/
def pickList {α : Type} (env : FakerEnv) (l : List α) (d : α) (st : FakerState) :
    α × FakerState :=
  (l.getD (env.pickIdx st.seed st.counter l.length) d, bump st)

/-- Model of `faker.person.fullName()`. -/
def drawFullName (env : FakerEnv) (st : FakerState) : String × FakerState :=
  (env.fullName st.seed st.counter, bump st)

/-- Model of `faker.company.name()`. -/
def drawCompanyName (env : FakerEnv) (st : FakerState) : String × FakerState :=
  (env.companyName st.seed st.counter, bump st)

/-- Model of `faker.internet.username()`. -/
def drawUsername (env : FakerEnv) (st : FakerState) : String × FakerState :=
  (env.username st.seed st.counter, bump st)

/-- Model of `faker.word.adjective()`. -/
def drawAdjective (env : FakerEnv) (st : FakerState) : String × FakerState :=
  (env.adjective st.seed st.counter, bump st)

/-- Model of `faker.word.noun()`. -/
def drawNoun (env : FakerEnv) (st : FakerState) : String × FakerState :=
  (env.noun st.seed st.counter, bump st)

/-- Model of `faker.date.between(from, to)`, returning an abstract
timestamp; `getFullYear` and `toLocaleDateString` of the environment
model the corresponding JavaScript `Date` methods. -/
def drawDateBetween (env : FakerEnv) (lo hi : String) (st : FakerState) :
    Int × FakerState :=
  (env.dateBetween st.seed st.counter lo hi, bump st)

/-- Truncation of an integer to a signed 32-bit value, as performed by
the JavaScript bitwise operators (`ToInt32`). -/
def toInt32 (n : Int) : Int :=
  let m := n % 4294967296
  if m < 2147483648 then m else m - 4294967296

/-- One step of the string-hash loop in `hashParameters`:
`hash = ((hash << 5) - hash) + char; hash = hash & hash`.  On a value
already truncated to 32 bits, `hash << 5` is `toInt32 (hash * 32)`, the
subtraction and addition are exact, and `hash & hash` truncates again. -/
def hashStep (h : Int) (c : Nat) : Int :=
  toInt32 (toInt32 (h * 32) - h + (c : Int))

/-- The string-hash loop of `hashParameters`, folded over the character
codes of the input (`str.charCodeAt(i)`). -/
def jsHash (s : String) : Int :=
  s.data.foldl (fun h c => hashStep h c.toNat) 0

/-- Generation parameters of `BookDataGenerator` (constructor fields).
The numeric averages are modelled as rationals; `avgLikesRepr` and
`avgReviewsRepr` are the decimal strings the JavaScript runtime
interpolates for them in the template literal of `hashParameters`
(the rendering itself is a runtime capability external to the core). -/
structure GenParams where
  locale : String
  baseSeed : Int
  avgLikes : ℚ
  avgReviews : ℚ
  avgLikesRepr : String
  avgReviewsRepr : String
deriving DecidableEq, Repr

/-- The template-literal argument of the hash loop:
`locale-avgLikes-avgReviews`. -/
def hashParamString (p : GenParams) : String :=
  p.locale ++ "-" ++ p.avgLikesRepr ++ "-" ++ p.avgReviewsRepr

/-- Embedding of `hashParameters`: hash the parameter string and take
`Math.abs` of the 32-bit result. -/
def hashParameters (p : GenParams) : Int :=
  ((jsHash (hashParamString p)).natAbs : Int)

/-- The derived per-record seed of `setSeedForIndex`:
`baseSeed + paramHash + index`. -/
def uniqueSeed (p : GenParams) (index : Int) : Int :=
  p.baseSeed + hashParameters p + index

/-- Embedding of `setSeedForIndex`: reseed the stream from the derived
per-record seed. -/
def setSeedForIndex (p : GenParams) (index : Int) : FakerState :=
  fakerSeed (uniqueSeed p index)

/-- Review sentiment, the hidden variable of the sentiment and rating
model. -/
inductive Sentiment where
  | positive
  | neutral
  | negative
deriving DecidableEq, Repr

/-- English positive review corpus (string table of
`generateReviewText`). -/
def enPositive : List String :=
  ["An absolutely captivating read that kept me turning pages late into the night.",
   "The character development is exceptional and the plot twists are brilliant.",
   "A masterpiece of modern literature that will stay with you long after reading.",
   "Compelling narrative with rich character development and unexpected turns.",
   "This book changed my perspective on life in the most beautiful way.",
   "Couldn\x27t put it down! The pacing is perfect and the ending is satisfying.",
   "Outstanding work! The author\x27s writing style is both engaging and profound.",
   "One of the best books I\x27ve read this year. Highly recommended!"]

/-- English neutral review corpus. -/
def enNeutral : List String :=
  ["A decent read with some interesting ideas and solid writing.",
   "The book has its moments but feels a bit predictable at times.",
   "Well-written overall, though some parts could have been tighter.",
   "An okay story that kept me engaged enough to finish it.",
   "Good character development, but the plot felt somewhat familiar.",
   "The writing is competent and the story is adequately told."]

/-- English negative review corpus. -/
def enNegative : List String :=
  ["Disappointing. The story felt rushed and characters were underdeveloped.",
   "I struggled to get through this book. The pacing was very slow.",
   "Not what I expected. The plot had potential but poor execution.",
   "The writing style didn\x27t work for me and I found it hard to connect.",
   "Confusing storyline and characters that I couldn\x27t relate to.",
   "Had high hopes but this book fell short of expectations."]

/-- German positive review corpus. -/
def dePositive : List String :=
  ["Ein fesselndes Buch, das mich bis spät in die Nacht wach gehalten hat.",
   "Die Charakterentwicklung ist außergewöhnlich und die Wendungen brillant.",
   "Ein Meisterwerk der modernen Literatur, das lange nachwirkt.",
   "Hervorragende Erzählung mit reicher Charakterentwicklung."]

/-- German neutral review corpus. -/
def deNeutral : List String :=
  ["Ein ordentliches Buch mit interessanten Ideen und solider Schreibweise.",
   "Das Buch hat seine Momente, wirkt aber manchmal etwas vorhersagbar.",
   "Gut geschrieben insgesamt, auch wenn einige Teile straffer hätten sein können."]

/-- German negative review corpus. -/
def deNegative : List String :=
  ["Enttäuschend. Die Geschichte wirkte gehetzt und die Charaktere unterentwickelt.",
   "Ich hatte Mühe, durch dieses Buch zu kommen. Das Tempo war sehr langsam.",
   "Nicht das, was ich erwartet hatte. Schlechte Umsetzung trotz Potenzial."]

/-- Japanese positive review corpus. -/
def jaPositive : List String :=
  ["夜遅くまでページをめくり続けた、絶対に魅力的な読み物。",
   "キャラクター開発は例外的で、プロットのひねりは素晴らしい。",
   "読んだ後も長く心に残る現代文学の傑作。"]

/-- Japanese neutral review corpus. -/
def jaNeutral : List String :=
  ["興味深いアイデアと堅実な文章でまともな読み物。",
   "この本にはいい瞬間もあるが、時々予測可能に感じる。"]

/-- Japanese negative review corpus. -/
def jaNegative : List String :=
  ["がっかりした。ストーリーが急いでいて、キャラクターが未発達。",
   "この本を読み終えるのに苦労した。ペースが非常に遅い。"]

/-- Sentiment-keyed English corpus. -/
def enCorpus : Sentiment → List String
  | Sentiment.positive => enPositive
  | Sentiment.neutral => enNeutral
  | Sentiment.negative => enNegative

/-- Sentiment-keyed German corpus. -/
def deCorpus : Sentiment → List String
  | Sentiment.positive => dePositive
  | Sentiment.neutral => deNeutral
  | Sentiment.negative => deNegative

/-- Sentiment-keyed Japanese corpus. -/
def jaCorpus : Sentiment → List String
  | Sentiment.positive => jaPositive
  | Sentiment.neutral => jaNeutral
  | Sentiment.negative => jaNegative

/-- Corpus table used on the non-throwing path of `generateReviewText`:
the own-key branch of `reviews[this.locale] || reviews[defaultLocale]`
with the en-US fallback.  The raw bracket lookup of the source also
consults the prototype chain of the object literal: for a locale string
naming an inherited object-prototype property the lookup is truthy, the
fallback never fires, and the subsequent indexing throws — that full
semantics is modelled below by `localeTableLookup` and
`generateReviewTextChecked`; this table describes every other locale
string. -/
def reviewCorpusFor (locale : String) : Sentiment → List String :=
  if locale = "en-US" then enCorpus
  else if locale = "de-DE" then deCorpus
  else if locale = "ja-JP" then jaCorpus
  else enCorpus

/-- Embedding of `generateReviewText`: one uniform pick from the locale-
and sentiment-keyed corpus. -/
def generateReviewText (env : FakerEnv) (p : GenParams) (s : Sentiment)
    (st : FakerState) : String × FakerState :=
  pickList env (reviewCorpusFor p.locale s) "" st

/-- Embedding of `determineReviewSentiment`: normalize the likes count to
a ratio, draw one uniform value, and compare it against the cumulative
thresholds of the popularity band. -/
def determineReviewSentiment (env : FakerEnv) (bookLikes : Int)
    (st : FakerState) : Sentiment × FakerState :=
  let likeRatio : ℚ := min ((bookLikes : ℚ) / 10) 1
  let d := drawFloat env st
  let u := d.1
  let s :=
    if likeRatio > 0.7 then
      if u < 0.8 then Sentiment.positive
      else if u < 0.95 then Sentiment.neutral
      else Sentiment.negative
    else if likeRatio > 0.4 then
      if u < 0.5 then Sentiment.positive
      else if u < 0.85 then Sentiment.neutral
      else Sentiment.negative
    else
      if u < 0.2 then Sentiment.positive
      else if u < 0.6 then Sentiment.neutral
      else Sentiment.negative
  (s, d.2)

/-- Cumulative walk over a weighted choice list: return the first value
whose cumulative weight exceeds the draw. -/
def weightedWalk {α : Type} : ℚ → List (ℚ × α) → α → α
  | _, [], d => d
  | u, (w, v) :: rest, d => if u < w then v else weightedWalk (u - w) rest d

/-- Total weight of a weighted choice list. -/
def weightedTotal {α : Type} (l : List (ℚ × α)) : ℚ :=
  (l.map Prod.fst).sum

/-- Modelled from the spec: `pick(weighted choices)` of the abstract
random capability (section 4.1), realized as one uniform draw scaled by
the total weight and compared against cumulative weights — the weighted
pick used by `generateRatingFromSentiment`.  The default is returned
only if the walk exhausts the list, which cannot happen for a draw below
the total weight. -/
def weightedArrayElement {α : Type} (env : FakerEnv) (l : List (ℚ × α))
    (d : α) (st : FakerState) : α × FakerState :=
  let dr := drawFloat env st
  (weightedWalk (dr.1 * weightedTotal l) l d, dr.2)

/-- Weighted rating table for positive sentiment. -/
def positiveRatingChoices : List (ℚ × Int) := [(60, 5), (30, 4), (10, 3)]

/-- Weighted rating table for neutral sentiment. -/
def neutralRatingChoices : List (ℚ × Int) := [(50, 3), (25, 4), (25, 2)]

/-- Weighted rating table for negative sentiment. -/
def negativeRatingChoices : List (ℚ × Int) := [(50, 1), (30, 2), (20, 3)]

/-- The weighted rating table selected by a sentiment (the `switch` of
`generateRatingFromSentiment`). -/
def ratingChoicesFor : Sentiment → List (ℚ × Int)
  | Sentiment.positive => positiveRatingChoices
  | Sentiment.neutral => neutralRatingChoices
  | Sentiment.negative => negativeRatingChoices

/-- Embedding of `generateRatingFromSentiment`: a weighted pick from the
table selected by the sentiment (the default handed to the walk is the
last table entry, which a draw below the total weight never reaches). -/
def generateRatingFromSentiment (env : FakerEnv) (s : Sentiment)
    (st : FakerState) : Int × FakerState :=
  weightedArrayElement env (ratingChoicesFor s)
    (match s with
     | Sentiment.positive => 3
     | Sentiment.neutral => 2
     | Sentiment.negative => 3) st

/-- Embedding of `capitalizeFirst`: uppercase the first character. -/
def capitalizeFirst (s : String) : String :=
  match s.data with
  | [] => s
  | c :: rest => String.mk (c.toUpper :: rest)

/-- Draw an adjective and capitalize it. -/
def drawCapAdjective (env : FakerEnv) (st : FakerState) : String × FakerState :=
  let d := drawAdjective env st
  (capitalizeFirst d.1, d.2)

/-- Draw a noun and capitalize it. -/
def drawCapNoun (env : FakerEnv) (st : FakerState) : String × FakerState :=
  let d := drawNoun env st
  (capitalizeFirst d.1, d.2)

/-- English title templates of `generateBookTitle`, in source order; each
template draws its word slots left to right. -/
def enTitleTemplates (env : FakerEnv) : List (FakerState → String × FakerState) :=
  [fun st =>
     let a := drawCapAdjective env st
     let n := drawCapNoun env a.2
     ("The " ++ a.1 ++ " " ++ n.1, n.2),
   fun st =>
     let a := drawCapAdjective env st
     let n := drawCapNoun env a.2
     (a.1 ++ " " ++ n.1, n.2),
   fun st =>
     let a := drawCapAdjective env st
     let n := drawCapNoun env a.2
     ("A " ++ a.1 ++ " " ++ n.1, n.2),
   fun st =>
     let n1 := drawCapNoun env st
     let n2 := drawCapNoun env n1.2
     (n1.1 ++ " of " ++ n2.1, n2.2),
   fun st =>
     let n1 := drawCapNoun env st
     let n2 := drawCapNoun env n1.2
     ("The " ++ n1.1 ++ "\x27s " ++ n2.1, n2.2)]

/-- German title templates of `generateBookTitle`. -/
def deTitleTemplates (env : FakerEnv) : List (FakerState → String × FakerState) :=
  [fun st =>
     let a := drawCapAdjective env st
     let n := drawCapNoun env a.2
     ("Der " ++ a.1 ++ " " ++ n.1, n.2),
   fun st =>
     let a := drawCapAdjective env st
     let n := drawCapNoun env a.2
     ("Die " ++ a.1 ++ "e " ++ n.1, n.2),
   fun st =>
     let a := drawCapAdjective env st
     let n := drawCapNoun env a.2
     ("Das " ++ a.1 ++ "e " ++ n.1, n.2),
   fun st =>
     let n1 := drawCapNoun env st
     let n2 := drawCapNoun env n1.2
     ("Im " ++ n1.1 ++ " der " ++ n2.1, n2.2)]

/-- Japanese title templates of `generateBookTitle`. -/
def jaTitleTemplates (env : FakerEnv) : List (FakerState → String × FakerState) :=
  [fun st =>
     let n := drawCapNoun env st
     let a := drawCapAdjective env n.2
     (n.1 ++ "の" ++ a.1, a.2),
   fun st =>
     let a := drawCapAdjective env st
     let n := drawCapNoun env a.2
     (a.1 ++ "な" ++ n.1, n.2),
   fun st =>
     let n1 := drawCapNoun env st
     let n2 := drawCapNoun env n1.2
     (n1.1 ++ "と" ++ n2.1, n2.2)]

/-- Template table used on the non-throwing path of `generateBookTitle`:
the own-key branch of
`titleTemplates[this.locale] || titleTemplates[defaultLocale]` with the
en-US fallback.  As with `reviewCorpusFor`, the source bracket lookup
also reaches inherited object-prototype properties, on which the
template call throws instead of falling back — see `localeTableLookup`
and `generateBookTitleChecked` below for that full semantics. -/
def titleTemplatesFor (env : FakerEnv) (locale : String) :
    List (FakerState → String × FakerState) :=
  if locale = "en-US" then enTitleTemplates env
  else if locale = "de-DE" then deTitleTemplates env
  else if locale = "ja-JP" then jaTitleTemplates env
  else enTitleTemplates env

/-- Embedding of `generateBookTitle`: pick a template uniformly, then run
it on the advanced stream. -/
def generateBookTitle (env : FakerEnv) (p : GenParams) (st : FakerState) :
    String × FakerState :=
  let t := pickList env (titleTemplatesFor env p.locale) (fun s => ("", s)) st
  t.1 t.2

/-- Modelled from the JavaScript runtime (an external platform
capability, like the random source): the property keys a bracket lookup
on a plain object literal finds on the prototype chain — the own
properties of the object prototype plus the proto accessor.  For these
keys `obj[k]` returns a truthy inherited value (a function or the
prototype object) even though the literal has no own entry for k. -/
def objectPrototypeKeys : List String :=
  ["constructor", "hasOwnProperty", "isPrototypeOf", "propertyIsEnumerable",
   "toLocaleString", "toString", "valueOf", "__proto__",
   "__defineGetter__", "__defineSetter__", "__lookupGetter__", "__lookupSetter__"]

/-- Result of the JavaScript bracket lookup `table[locale]` on a
three-key object literal: an own entry, a truthy value inherited from
the prototype chain, or undefined. -/
inductive JsLookup (α : Type) where
  | own : α → JsLookup α
  | inherited : JsLookup α
  | undef : JsLookup α
deriving DecidableEq

/-- The bracket lookup `table[locale]` for the locale tables of
`generateReviewText` and `generateBookTitle`, including the prototype
chain of the object literal. -/
def localeTableLookup {α : Type} (en de ja : α) (locale : String) : JsLookup α :=
  if locale = "en-US" then JsLookup.own en
  else if locale = "de-DE" then JsLookup.own de
  else if locale = "ja-JP" then JsLookup.own ja
  else if locale ∈ objectPrototypeKeys then JsLookup.inherited
  else JsLookup.undef

/-- Embedding of `generateReviewText` with the throwing path made
explicit: `reviews[locale] || reviews[defaultLocale]` falls back only
when the lookup is undefined (falsy); a truthy value inherited from the
object prototype is kept, and indexing it by the sentiment yields
undefined, on which the array pick throws — modelled as `none`. -/
def generateReviewTextChecked (env : FakerEnv) (p : GenParams) (s : Sentiment)
    (st : FakerState) : Option (String × FakerState) :=
  match localeTableLookup enCorpus deCorpus jaCorpus p.locale with
  | JsLookup.own c => some (pickList env (c s) "" st)
  | JsLookup.inherited => none
  | JsLookup.undef => some (pickList env (enCorpus s) "" st)

/-- Embedding of `generateBookTitle` with the throwing path made
explicit: a truthy value inherited from the object prototype is kept by
`||`, and calling the picked non-template then throws — modelled as
`none`; an undefined lookup falls back to the en-US templates. -/
def generateBookTitleChecked (env : FakerEnv) (p : GenParams) (st : FakerState) :
    Option (String × FakerState) :=
  match localeTableLookup (enTitleTemplates env) (deTitleTemplates env)
      (jaTitleTemplates env) p.locale with
  | JsLookup.own ts =>
    some (let t := pickList env ts (fun s2 => ("", s2)) st; t.1 t.2)
  | JsLookup.inherited => none
  | JsLookup.undef =>
    some (let t := pickList env (enTitleTemplates env) (fun s2 => ("", s2)) st; t.1 t.2)

/-- Embedding of `generateExactCount`: return 0 immediately on a zero
target; otherwise split the target into integer and fractional parts and
round up with probability equal to the fractional part, consuming one
uniform draw only when the fractional part is positive. -/
def generateExactCount (env : FakerEnv) (targetValue : ℚ) (st : FakerState) :
    Int × FakerState :=
  if targetValue = 0 then (0, st)
  else
    let integerPart : Int := ⌊targetValue⌋
    let fractionalPart : ℚ := targetValue - integerPart
    if 0 < fractionalPart then
      let d := drawFloat env st
      (if d.1 < fractionalPart then integerPart + 1 else integerPart, d.2)
    else (integerPart, st)

/-- Value of `generateExactCount` as a function of the uniform draw it
would consume, over any ordered field with a floor (used to state the
expected-value property over the reals). -/
def exactCountResult {α : Type} [LinearOrderedField α] [FloorRing α]
    (target u : α) : Int :=
  if target = 0 then 0
  else if 0 < target - (⌊target⌋ : α) then
    (if u < target - (⌊target⌋ : α) then ⌊target⌋ + 1 else ⌊target⌋)
  else ⌊target⌋

/-- Embedding of `generateISBN`. -/
def generateISBN (env : FakerEnv) (st : FakerState) : String × FakerState :=
  let pfx := pickList env ["978", "979"] "" st
  let group := drawInt env 0 9 pfx.2
  let pubCode := drawInt env 10 999 group.2
  let titleCode := drawInt env 10 999 pubCode.2
  let checkDigit := drawInt env 0 9 titleCode.2
  (pfx.1 ++ "-" ++ toString group.1 ++ "-" ++ toString pubCode.1 ++ "-" ++
     toString titleCode.1 ++ "-" ++ toString checkDigit.1, checkDigit.2)

/-- Publisher-type suffixes of `generateBook`. -/
def publisherTypes : List String := ["Press", "Publishing", "Books", "Media", "House"]

/-- Cover-image descriptor (interface `CoverImage`). -/
structure CoverImage where
  imageUrl : String
  title : String
  author : String
deriving DecidableEq, Repr

/-- JavaScript remainder (`%`) for integer operands: the sign of the
dividend times the remainder of the magnitudes (truncated division). -/
def jsRem (a b : Int) : Int :=
  if 0 ≤ a then ((a.natAbs % b.natAbs : Nat) : Int)
  else -((a.natAbs % b.natAbs : Nat) : Int)

/-- The deterministic pseudo-identifier of the cover-image descriptor:
`(baseSeed + hashParameters + index) % 1000` with the JavaScript
remainder. -/
def coverImageId (p : GenParams) (index : Int) : Int :=
  jsRem (p.baseSeed + hashParameters p + index) 1000

/-- Embedding of `generateCoverImage`: fixed 400 by 600 dimensions, the
pseudo-identifier in the URL, and title and author labels truncated to
25 and 20 characters with an ellipsis. -/
def generateCoverImage (p : GenParams) (title author : String) (index : Int) :
    CoverImage :=
  let width : Nat := 400
  let height : Nat := 600
  CoverImage.mk
    ("https://picsum.photos/seed/" ++ toString (coverImageId p index) ++ "/" ++
       toString width ++ "/" ++ toString height)
    (if title.length > 25 then title.take 25 ++ "..." else title)
    (if author.length > 20 then author.take 20 ++ "..." else author)

/-- A generated review (interface `Review`). -/
structure Review where
  reviewer : String
  rating : Int
  text : String
  date : String
deriving DecidableEq, Repr

/-- A generated record (interface `Book`). -/
structure Book where
  index : Int
  isbn : String
  title : String
  authors : List String
  publisher : String
  year : Int
  likes : Int
  reviews : List Review
  coverImage : CoverImage
deriving DecidableEq, Repr

/-- One iteration of the review loop in `generateBook`: sample a
sentiment from the likes count, then the rating and the text from that
same sentiment, then the reviewer name and the display date. -/
def generateReview (env : FakerEnv) (p : GenParams) (likes : Int)
    (st : FakerState) : Review × FakerState :=
  let s := determineReviewSentiment env likes st
  let r := generateRatingFromSentiment env s.1 s.2
  let t := generateReviewText env p s.1 r.2
  let nm := drawUsername env t.2
  let d := drawDateBetween env "2020-01-01" "2024-12-31" nm.2
  (Review.mk nm.1 r.1 t.1 (env.toLocaleDateString d.1 p.locale), d.2)

/-- The review loop of `generateBook`, building the review list in
order. -/
def generateReviews (env : FakerEnv) (p : GenParams) (likes : Int) :
    Nat → FakerState → List Review × FakerState
  | 0, st => ([], st)
  | n + 1, st =>
    let r := generateReview env p likes st
    let rest := generateReviews env p likes n r.2
    (r.1 :: rest.1, rest.2)

/-- The author loop of `generateBook` (the `switch` on the locale draws a
full name in every branch). -/
def drawAuthors (env : FakerEnv) : Nat → FakerState → List String × FakerState
  | 0, st => ([], st)
  | n + 1, st =>
    let a := drawFullName env st
    let rest := drawAuthors env n a.2
    (a.1 :: rest.1, rest.2)

/-- Embedding of `generateBook`: reseed the stream from the derived
per-record seed, then synthesize every field in source order (title,
author count, authors, publisher, year, likes, review count, reviews,
identifier, cover descriptor).  The title and review-text steps use the
non-throwing lookup tables; for a locale string naming an inherited
object-prototype property the source throws inside these steps instead
(see `generateBookTitleChecked` and `generateReviewTextChecked`) — the
handler admits only the three supported locales, for which the two
semantics coincide. -/
def generateBook (env : FakerEnv) (p : GenParams) (index : Int)
    (_st : FakerState) : Book × FakerState :=
  let st0 := setSeedForIndex p index
  let ti := generateBookTitle env p st0
  let na := drawInt env 1 3 ti.2
  let au := drawAuthors env na.1.toNat na.2
  let cn := drawCompanyName env au.2
  let pt := pickList env publisherTypes "" cn.2
  let publisher := cn.1 ++ " " ++ pt.1
  let yd := drawDateBetween env "1945-01-01" "2025-08-04" pt.2
  let year := env.getFullYear yd.1
  let lk := generateExactCount env p.avgLikes yd.2
  let nr := generateExactCount env p.avgReviews lk.2
  let rv := generateReviews env p lk.1 nr.1.toNat nr.2
  let ib := generateISBN env rv.2
  (Book.mk index ib.1 ti.1 au.1 publisher year lk.1 rv.1
     (generateCoverImage p ti.1 (au.1.getD 0 "") index), ib.2)

/-- Number of records on a page: 20 on page 0, 10 otherwise. -/
def pageRecordCount (page : Nat) : Nat :=
  if page = 0 then 20 else 10

/-- First record index of a page: 1 on page 0, `20 + (page - 1) * 10 + 1`
otherwise. -/
def pageStartIndex (page : Nat) : Nat :=
  if page = 0 then 1 else 20 + (page - 1) * 10 + 1

/-- The generation loop of the `/api/books` handler: `count` consecutive
records starting at `idx`, threading the stream state through the
calls. -/
def generatePageLoop (env : FakerEnv) (p : GenParams) :
    Nat → Int → FakerState → List Book × FakerState
  | 0, _, st => ([], st)
  | n + 1, idx, st =>
    let b := generateBook env p idx st
    let rest := generatePageLoop env p n (idx + 1) b.2
    (b.1 :: rest.1, rest.2)

/-- Response of the `/api/books` handler (the metadata echo carries no
generation content beyond the inputs and a wall-clock timestamp, so it
is not modelled). -/
structure BooksResponse where
  books : List Book
  page : Nat
  hasMore : Bool
deriving DecidableEq, Repr

/-- Embedding of the `/api/books` handler body after validation: build a
full page of records and set `hasMore` to `page < 50`. -/
def handleBooks (env : FakerEnv) (p : GenParams) (page : Nat)
    (st : FakerState) : BooksResponse :=
  BooksResponse.mk
    (generatePageLoop env p (pageRecordCount page) ((pageStartIndex page : Nat) : Int) st).1
    page (decide (page < 50))

/-- Concatenation of the index columns of pages 0 through k, in page
order. -/
def pagesConcatIndices (env : FakerEnv) (p : GenParams) (st : FakerState) :
    Nat → List Int
  | 0 => (handleBooks env p 0 st).books.map Book.index
  | k + 1 =>
    pagesConcatIndices env p st k ++ (handleBooks env p (k + 1) st).books.map Book.index

lemma generateBook_state_irrelevant (env : FakerEnv) (p : GenParams)
    (index : Int) (st1 st2 : FakerState) :
    generateBook env p index st1 = generateBook env p index st2 := rfl

lemma generateBook_index (env : FakerEnv) (p : GenParams) (index : Int)
    (st : FakerState) : (generateBook env p index st).1.index = index := rfl

lemma generatePageLoop_length (env : FakerEnv) (p : GenParams) :
    ∀ (n : Nat) (idx : Int) (st : FakerState),
      ((generatePageLoop env p n idx st).1).length = n
  | 0, _, _ => rfl
  | n + 1, idx, st => by
    simp [generatePageLoop, generatePageLoop_length env p n]

lemma generatePageLoop_getElem (env : FakerEnv) (p : GenParams) :
    ∀ (n : Nat) (idx : Int) (st : FakerState) (j : Nat),
      ((generatePageLoop env p n idx st).1)[j]? =
        if j < n then some (generateBook env p (idx + (j : Int)) st).1 else none
  | 0, idx, st, j => by simp [generatePageLoop]
  | n + 1, idx, st, j => by
    match j with
    | 0 => simp [generatePageLoop]
    | j + 1 =>
      have ih := generatePageLoop_getElem env p n (idx + 1)
        (generateBook env p idx st).2 (j)
      simp only [generatePageLoop, List.getElem?_cons_succ, ih]
      have harith : idx + 1 + (j : Int) = idx + ((j : Int) + 1) := by ring
      have hst : generateBook env p (idx + ((j : Int) + 1))
            (generateBook env p idx st).2 =
          generateBook env p (idx + ((j : Int) + 1)) st := rfl
      rw [harith, hst]
      simp [Nat.succ_lt_succ_iff]

lemma generatePageLoop_map_index (env : FakerEnv) (p : GenParams) :
    ∀ (n : Nat) (s : Nat) (st : FakerState),
      ((generatePageLoop env p n (s : Int) st).1).map Book.index =
        (List.range' s n).map Int.ofNat
  | 0, _, _ => rfl
  | n + 1, s, st => by
    have ih := generatePageLoop_map_index env p n (s + 1)
      (generateBook env p (s : Int) st).2
    simp only [generatePageLoop, List.map_cons, List.range'_succ,
      generateBook_index]
    rw [show ((s : Int) + 1) = ((s + 1 : Nat) : Int) by push_cast; ring] at *
    rw [ih]
    simp

/-- Concrete instance of the random capability used to evaluate the
generator on explicit inputs: every draw returns the least allowed
value. -/
def constEnv : FakerEnv :=
  FakerEnv.mk (fun _ _ => 0) (fun _ _ lo _ => lo) (fun _ _ _ => 0)
    (fun _ _ => "a") (fun _ _ => "b") (fun _ _ => "c")
    (fun _ _ => "adj") (fun _ _ => "noun")
    (fun _ _ _ _ => 0) (fun _ => 2000) (fun _ _ => "1/1/2020")
    (fun _ _ => le_refl 0) (fun _ _ => by norm_num)
    (fun _ _ lo _ _ => le_refl lo) (fun _ _ _ _ h => h) (fun _ _ _ h => h)

/-- Concrete generation parameters used to evaluate the generator on
explicit inputs. -/
def sampleParams : GenParams := GenParams.mk "en-US" 42 0 0 "0" "0"

/-- C1: for every parameter tuple and record index, `generateBook`
yields identical output on every invocation regardless of the incoming
random-stream state — generating a record in isolation, out of order,
or after any sequence of prior calls gives the same record as in
sequence, because the stream is reseeded from the derived per-record
seed before any field is synthesized. -/
theorem generateBook_deterministic_and_index_independent :
    (∀ (env : FakerEnv) (p : GenParams) (index : Int) (st1 st2 : FakerState),
      generateBook env p index st1 = generateBook env p index st2)
    ∧ (∀ (env : FakerEnv) (p : GenParams) (index : Int) (st : FakerState),
      generateBook env p index st =
        generateBook env p index (setSeedForIndex p index))
    ∧ (∀ (env : FakerEnv) (p : GenParams) (n : Nat) (idx : Int)
        (st : FakerState) (j : Nat),
      ((generatePageLoop env p n idx st).1)[j]? =
        if j < n then some (generateBook env p (idx + (j : Int)) st).1 else none) :=
  ⟨fun _ _ _ _ _ => rfl, fun _ _ _ _ => rfl,
   fun env p n idx st j => generatePageLoop_getElem env p n idx st j⟩

/-- C9: for every page number, also beyond the 50-page limit, the
handler generates a full page of records (20 on page 0, 10 otherwise);
the limit only drives the `hasMore` flag. -/
theorem handler_generates_full_page_for_every_page :
    ∀ (env : FakerEnv) (p : GenParams) (page : Nat) (st : FakerState),
      (handleBooks env p page st).books.length = (if page = 0 then 20 else 10)
      ∧ (handleBooks env p page st).books =
          (generatePageLoop env p (pageRecordCount page)
            ((pageStartIndex page : Nat) : Int) st).1
      ∧ (handleBooks env p page st).hasMore = decide (page < 50) := by
  intro env p page st
  refine ⟨?_, rfl, rfl⟩
  simp [handleBooks, generatePageLoop_length, pageRecordCount]

/-- C2: page 0 holds exactly 20 records with indices 1 through 20; page
k for k at least 1 holds exactly 10 records starting at index
`20 + (k - 1) * 10 + 1`; concatenating pages 0 through k yields the
indices 1 through `20 + 10 * k` exactly, without duplicates or gaps;
and `hasMore` is false exactly when the page number is at least 50. -/
theorem pagination_contract :
    ∀ (env : FakerEnv) (p : GenParams) (st : FakerState),
      ((handleBooks env p 0 st).books.length = 20
        ∧ (handleBooks env p 0 st).books.map Book.index =
            (List.range' 1 20).map Int.ofNat)
      ∧ (∀ k : Nat, 1 ≤ k →
          (handleBooks env p k st).books.length = 10
          ∧ (handleBooks env p k st).books.map Book.index =
              (List.range' (20 + (k - 1) * 10 + 1) 10).map Int.ofNat)
      ∧ (∀ k : Nat, pagesConcatIndices env p st k =
          (List.range' 1 (20 + 10 * k)).map Int.ofNat)
      ∧ (∀ page : Nat,
          ((handleBooks env p page st).hasMore = false ↔ 50 ≤ page)) := by
  intro env p st
  have hpage : ∀ k : Nat, 1 ≤ k →
      (handleBooks env p k st).books.length = 10
      ∧ (handleBooks env p k st).books.map Book.index =
          (List.range' (20 + (k - 1) * 10 + 1) 10).map Int.ofNat := by
    intro k hk
    have hk0 : k ≠ 0 := by omega
    constructor
    · simp [handleBooks, generatePageLoop_length, pageRecordCount, hk0]
    · have := generatePageLoop_map_index env p (pageRecordCount k)
        (pageStartIndex k) st
      simpa [handleBooks, pageRecordCount, pageStartIndex, hk0] using this
  have hpage0 : (handleBooks env p 0 st).books.length = 20
      ∧ (handleBooks env p 0 st).books.map Book.index =
          (List.range' 1 20).map Int.ofNat := by
    constructor
    · simp [handleBooks, generatePageLoop_length, pageRecordCount]
    · have := generatePageLoop_map_index env p (pageRecordCount 0)
        (pageStartIndex 0) st
      simpa [handleBooks, pageRecordCount, pageStartIndex] using this
  refine ⟨hpage0, hpage, ?_, ?_⟩
  · intro k
    induction k with
    | zero => simpa [pagesConcatIndices] using hpage0.2
    | succ k ih =>
      have hk1 : 1 ≤ k + 1 := by omega
      have hmap := (hpage (k + 1) hk1).2
      have hstart : 20 + (k + 1 - 1) * 10 + 1 = 1 + (20 + 10 * k) := by omega
      rw [hstart] at hmap
      have happ := List.range'_append_1 1 (20 + 10 * k) 10
      calc pagesConcatIndices env p st (k + 1)
          = pagesConcatIndices env p st k ++
              (handleBooks env p (k + 1) st).books.map Book.index := rfl
        _ = (List.range' 1 (20 + 10 * k)).map Int.ofNat ++
              (List.range' (1 + (20 + 10 * k)) 10).map Int.ofNat := by
            rw [ih, hmap]
        _ = ((List.range' 1 (20 + 10 * k) ++
              List.range' (1 + (20 + 10 * k)) 10).map Int.ofNat) := by
            rw [List.map_append]
        _ = (List.range' 1 (20 + 10 * (k + 1))).map Int.ofNat := by
            rw [happ, show 10 + (20 + 10 * k) = 20 + 10 * (k + 1) from by omega]
  · intro page
    simp only [handleBooks, decide_eq_false_iff_not, not_lt]

/-- Witness for the pagination contract: page 1 of a concrete request
holds exactly 10 records with indices 21 through 30. -/
theorem pagination_contract_witness :
    (handleBooks constEnv sampleParams 1 (FakerState.mk 0 0)).books.length = 10
    ∧ (handleBooks constEnv sampleParams 1 (FakerState.mk 0 0)).books.map
        Book.index =
        (List.range' (20 + (1 - 1) * 10 + 1) 10).map Int.ofNat :=
  (pagination_contract constEnv sampleParams (FakerState.mk 0 0)).2.1 1 (by decide)

/-- Replace only the base seed of a parameter tuple. -/
def withBaseSeed (p : GenParams) (s : Int) : GenParams :=
  GenParams.mk p.locale s p.avgLikes p.avgReviews p.avgLikesRepr p.avgReviewsRepr

/-- C3 counterexample: two parameter tuples that differ in exactly the
seed (locale, avgLikes and avgReviews all equal) have the same
parameter fingerprint, because `hashParameters` hashes only the locale
and the two averages — the claim that the fingerprint differs is false
for a seed-only change. -/
theorem hashParameters_ignores_seed_counterexample :
    (GenParams.mk "en-US" 1 5 (47/10) "5" "4.7").baseSeed ≠
      (GenParams.mk "en-US" 2 5 (47/10) "5" "4.7").baseSeed
    ∧ (GenParams.mk "en-US" 1 5 (47/10) "5" "4.7").locale =
      (GenParams.mk "en-US" 2 5 (47/10) "5" "4.7").locale
    ∧ (GenParams.mk "en-US" 1 5 (47/10) "5" "4.7").avgLikes =
      (GenParams.mk "en-US" 2 5 (47/10) "5" "4.7").avgLikes
    ∧ (GenParams.mk "en-US" 1 5 (47/10) "5" "4.7").avgReviews =
      (GenParams.mk "en-US" 2 5 (47/10) "5" "4.7").avgReviews
    ∧ hashParameters (GenParams.mk "en-US" 1 5 (47/10) "5" "4.7") =
      hashParameters (GenParams.mk "en-US" 2 5 (47/10) "5" "4.7") :=
  ⟨by decide, rfl, rfl, rfl, rfl⟩

set_option maxRecDepth 20000 in
/-- C3 (amended): changing the seed alone leaves the parameter
fingerprint unchanged, but still changes the derived per-record seed at
every index; for a fixed base seed, any parameter change that changes
the fingerprint changes the derived per-record seed at every index; and
the three supported locales have pairwise distinct fingerprints at the
concrete averages 5 and 4.7. -/
theorem parameter_sensitivity_amended :
    (∀ (p : GenParams) (s : Int),
      hashParameters (withBaseSeed p s) = hashParameters p)
    ∧ (∀ (p : GenParams) (s i : Int), s ≠ p.baseSeed →
        uniqueSeed (withBaseSeed p s) i ≠ uniqueSeed p i)
    ∧ (∀ (p q : GenParams) (i : Int), p.baseSeed = q.baseSeed →
        hashParameters p ≠ hashParameters q →
        uniqueSeed p i ≠ uniqueSeed q i)
    ∧ (hashParameters (GenParams.mk "en-US" 0 5 (47/10) "5" "4.7") ≠
        hashParameters (GenParams.mk "de-DE" 0 5 (47/10) "5" "4.7")
      ∧ hashParameters (GenParams.mk "en-US" 0 5 (47/10) "5" "4.7") ≠
        hashParameters (GenParams.mk "ja-JP" 0 5 (47/10) "5" "4.7")
      ∧ hashParameters (GenParams.mk "de-DE" 0 5 (47/10) "5" "4.7") ≠
        hashParameters (GenParams.mk "ja-JP" 0 5 (47/10) "5" "4.7")) := by
  have h1 : ∀ (p : GenParams) (s : Int),
      hashParameters (withBaseSeed p s) = hashParameters p := fun _ _ => rfl
  refine ⟨h1, ?_, ?_, by decide, by decide, by decide⟩
  · intro p s i hs
    have hb : (withBaseSeed p s).baseSeed = s := rfl
    simp only [uniqueSeed, h1 p s, hb]
    omega
  · intro p q i hb hh
    simp only [uniqueSeed, hb]
    omega

/-- Witness for the amended parameter-sensitivity theorem: a concrete
seed-only change and a concrete locale change both shift the derived
per-record seed. -/
theorem parameter_sensitivity_amended_witness :
    uniqueSeed (withBaseSeed sampleParams 43) 1 ≠ uniqueSeed sampleParams 1
    ∧ uniqueSeed (GenParams.mk "en-US" 0 5 (47/10) "5" "4.7") 3 ≠
        uniqueSeed (GenParams.mk "de-DE" 0 5 (47/10) "5" "4.7") 3 :=
  ⟨parameter_sensitivity_amended.2.1 sampleParams 43 1 (by decide),
   parameter_sensitivity_amended.2.2.1 (GenParams.mk "en-US" 0 5 (47/10) "5" "4.7")
     (GenParams.mk "de-DE" 0 5 (47/10) "5" "4.7") 3 rfl
     parameter_sensitivity_amended.2.2.2.1⟩

set_option maxRecDepth 20000 in
/-- C7 counterexample: for a negative base seed the cover-image
pseudo-identifier is negative (the JavaScript remainder keeps the sign
of the dividend), so it does not lie in the range 0 to 999. -/
theorem coverImageId_negative_counterexample :
    coverImageId (GenParams.mk "en-US" (-2000000000) 5 (47/10) "5" "4.7") 1 = -953
    ∧ ¬ (0 ≤ coverImageId (GenParams.mk "en-US" (-2000000000) 5 (47/10) "5" "4.7") 1) :=
  ⟨by decide, by decide⟩

/-- C7 (amended): the cover-image descriptor URL embeds the
pseudo-identifier `(baseSeed + fingerprint + index) % 1000` (JavaScript
truncated remainder) with the fixed dimensions 400 by 600; the title
and author labels are truncated at 25 and 20 characters with an
ellipsis; and the pseudo-identifier lies in the range 0 to 999 exactly
when `baseSeed + fingerprint + index` is nonnegative — for a negative
sum it lies in -999 to 0 instead. -/
theorem coverImage_descriptor_amended :
    ∀ (p : GenParams) (title author : String) (index : Int),
      (generateCoverImage p title author index).imageUrl =
        "https://picsum.photos/seed/" ++ toString (coverImageId p index) ++ "/400/600"
      ∧ coverImageId p index = jsRem (p.baseSeed + hashParameters p + index) 1000
      ∧ (generateCoverImage p title author index).title =
          (if title.length > 25 then title.take 25 ++ "..." else title)
      ∧ (generateCoverImage p title author index).author =
          (if author.length > 20 then author.take 20 ++ "..." else author)
      ∧ (0 ≤ p.baseSeed + hashParameters p + index →
          0 ≤ coverImageId p index ∧ coverImageId p index < 1000)
      ∧ (p.baseSeed + hashParameters p + index < 0 →
          -1000 < coverImageId p index ∧ coverImageId p index ≤ 0) := by
  intro p title author index
  have hmod : (p.baseSeed + hashParameters p + index).natAbs % 1000 < 1000 :=
    Nat.mod_lt _ (by norm_num)
  have h1000 : (1000 : Int).natAbs = 1000 := rfl
  refine ⟨?_, rfl, rfl, rfl, ?_, ?_⟩
  · show "https://picsum.photos/seed/" ++ toString (coverImageId p index) ++ "/" ++
        toString (400 : Nat) ++ "/" ++ toString (600 : Nat) =
      "https://picsum.photos/seed/" ++ toString (coverImageId p index) ++ "/400/600"
    simp [String.append_assoc]
    congr 1
  · intro hpos
    simp only [coverImageId, jsRem, if_pos hpos, h1000]
    omega
  · intro hneg
    simp only [coverImageId, jsRem, h1000,
      if_neg (by omega : ¬ 0 ≤ p.baseSeed + hashParameters p + index)]
    omega

set_option maxRecDepth 20000 in
/-- Witness for the amended cover-image theorem: at a concrete
nonnegative seed the pseudo-identifier lies in 0 to 999. -/
theorem coverImage_descriptor_amended_witness :
    0 ≤ coverImageId sampleParams 1 ∧ coverImageId sampleParams 1 < 1000 :=
  (coverImage_descriptor_amended sampleParams "t" "a" 1).2.2.2.2.1 (by decide)

/-- Concrete unsupported-locale parameters used by the fallback
witness. -/
def frParams : GenParams := GenParams.mk "fr-FR" 7 1 2 "1" "2"

/-- Concrete prototype-key locale parameters used by the fallback
counterexample and witness. -/
def protoParams : GenParams := GenParams.mk "constructor" 1 0 1 "0" "1"

lemma checked_agrees_outside_prototype (env : FakerEnv) (p : GenParams)
    (s : Sentiment) (st : FakerState) (h : p.locale ∉ objectPrototypeKeys) :
    generateReviewTextChecked env p s st = some (generateReviewText env p s st)
    ∧ generateBookTitleChecked env p st = some (generateBookTitle env p st) := by
  by_cases h1 : p.locale = "en-US"
  · constructor <;>
      simp [generateReviewTextChecked, generateBookTitleChecked, localeTableLookup,
        generateReviewText, generateBookTitle, reviewCorpusFor, titleTemplatesFor, h1]
  · by_cases h2 : p.locale = "de-DE"
    · constructor <;>
        simp [generateReviewTextChecked, generateBookTitleChecked, localeTableLookup,
          generateReviewText, generateBookTitle, reviewCorpusFor, titleTemplatesFor,
          h1, h2]
    · by_cases h3 : p.locale = "ja-JP"
      · constructor <;>
          simp [generateReviewTextChecked, generateBookTitleChecked, localeTableLookup,
            generateReviewText, generateBookTitle, reviewCorpusFor, titleTemplatesFor,
            h1, h2, h3]
      · constructor <;>
          simp [generateReviewTextChecked, generateBookTitleChecked, localeTableLookup,
            generateReviewText, generateBookTitle, reviewCorpusFor, titleTemplatesFor,
            h1, h2, h3, h]

/-- C8 counterexample: the locale string "constructor" is not one of
the supported locales, yet generation does not fall back to the en-US
tables — the bracket lookup finds the truthy constructor property
inherited from the object prototype, the falsy-only fallback never
fires, and the subsequent sentiment indexing and template call throw
(modelled as `none`), so the generator is not total over all locale
strings. -/
theorem prototype_locale_throws_counterexample :
    (protoParams.locale ≠ "en-US" ∧ protoParams.locale ≠ "de-DE"
      ∧ protoParams.locale ≠ "ja-JP")
    ∧ generateReviewTextChecked constEnv protoParams Sentiment.positive
        (FakerState.mk 0 0) = none
    ∧ generateBookTitleChecked constEnv protoParams (FakerState.mk 0 0) = none := by
  refine ⟨⟨by decide, by decide, by decide⟩, ?_, ?_⟩ <;>
    simp [generateReviewTextChecked, generateBookTitleChecked, localeTableLookup,
      objectPrototypeKeys, protoParams]

/-- C8 (amended): an unsupported locale falls back to the default en-US
template set and corpus, except when the locale string names an
inherited property of the JavaScript object prototype — for those
strings the bracket lookup is truthy, the fallback never fires, and
title and review-text generation throw instead of falling back, so
direct generation is not total over all locale strings. -/
theorem unsupported_locale_fallback_amended :
    ∀ (env : FakerEnv) (p : GenParams) (s : Sentiment) (st : FakerState),
      p.locale ≠ "en-US" → p.locale ≠ "de-DE" → p.locale ≠ "ja-JP" →
      (p.locale ∉ objectPrototypeKeys →
        generateReviewTextChecked env p s st =
          some (generateReviewText env (GenParams.mk "en-US" p.baseSeed p.avgLikes
            p.avgReviews p.avgLikesRepr p.avgReviewsRepr) s st)
        ∧ generateBookTitleChecked env p st =
          some (generateBookTitle env (GenParams.mk "en-US" p.baseSeed p.avgLikes
            p.avgReviews p.avgLikesRepr p.avgReviewsRepr) st)
        ∧ reviewCorpusFor p.locale = enCorpus
        ∧ titleTemplatesFor env p.locale = enTitleTemplates env)
      ∧ (p.locale ∈ objectPrototypeKeys →
        generateReviewTextChecked env p s st = none
        ∧ generateBookTitleChecked env p st = none) := by
  intro env p s st h1 h2 h3
  constructor
  · intro hproto
    refine ⟨?_, ?_, ?_, ?_⟩
    · simp [generateReviewTextChecked, localeTableLookup, h1, h2, h3, hproto,
        generateReviewText, reviewCorpusFor]
    · simp [generateBookTitleChecked, localeTableLookup, h1, h2, h3, hproto,
        generateBookTitle, titleTemplatesFor]
    · simp [reviewCorpusFor, h1, h2, h3]
    · simp [titleTemplatesFor, h1, h2, h3]
  · intro hproto
    constructor
    · simp [generateReviewTextChecked, localeTableLookup, h1, h2, h3, hproto]
    · simp [generateBookTitleChecked, localeTableLookup, h1, h2, h3, hproto]

/-- Witness for the amended locale-fallback theorem: the ordinary
unsupported locale fr-FR falls back to en-US generation, while the
prototype-key locale of `protoParams` makes generation throw. -/
theorem unsupported_locale_fallback_amended_witness :
    (generateReviewTextChecked constEnv frParams Sentiment.positive (FakerState.mk 0 0) =
        some (generateReviewText constEnv (GenParams.mk "en-US" frParams.baseSeed
          frParams.avgLikes frParams.avgReviews frParams.avgLikesRepr
          frParams.avgReviewsRepr) Sentiment.positive (FakerState.mk 0 0))
      ∧ generateBookTitleChecked constEnv frParams (FakerState.mk 0 0) =
        some (generateBookTitle constEnv (GenParams.mk "en-US" frParams.baseSeed
          frParams.avgLikes frParams.avgReviews frParams.avgLikesRepr
          frParams.avgReviewsRepr) (FakerState.mk 0 0))
      ∧ reviewCorpusFor frParams.locale = enCorpus
      ∧ titleTemplatesFor constEnv frParams.locale = enTitleTemplates constEnv)
    ∧ (generateReviewTextChecked constEnv protoParams Sentiment.positive
        (FakerState.mk 0 0) = none
      ∧ generateBookTitleChecked constEnv protoParams (FakerState.mk 0 0) = none) :=
  ⟨(unsupported_locale_fallback_amended constEnv frParams Sentiment.positive
      (FakerState.mk 0 0) (by decide) (by decide) (by decide)).1 (by decide),
   (unsupported_locale_fallback_amended constEnv protoParams Sentiment.positive
      (FakerState.mk 0 0) (by decide) (by decide) (by decide)).2 (by decide)⟩

/-- C5: a review sentiment is sampled by normalizing the likes count to
`min(likes/10, 1)`, drawing one fresh uniform value, and comparing it
against the cumulative thresholds 0.8/0.95, 0.5/0.85 and 0.2/0.6 of the
three popularity bands; the rating is then one weighted draw whose
cumulative thresholds realize the distributions 5 at 60 percent, 4 at
30 percent, 3 at 10 percent (positive), 3 at 50, 4 at 25, 2 at 25
(neutral), and 1 at 50, 2 at 30, 3 at 20 (negative). -/
theorem sentiment_rating_model :
    ∀ (env : FakerEnv) (likes : Int) (st : FakerState),
      ((determineReviewSentiment env likes st).1 =
        (if min ((likes : ℚ) / 10) 1 > 0.7 then
          if env.nextFloat st.seed st.counter < 0.8 then Sentiment.positive
          else if env.nextFloat st.seed st.counter < 0.95 then Sentiment.neutral
          else Sentiment.negative
        else if min ((likes : ℚ) / 10) 1 > 0.4 then
          if env.nextFloat st.seed st.counter < 0.5 then Sentiment.positive
          else if env.nextFloat st.seed st.counter < 0.85 then Sentiment.neutral
          else Sentiment.negative
        else
          if env.nextFloat st.seed st.counter < 0.2 then Sentiment.positive
          else if env.nextFloat st.seed st.counter < 0.6 then Sentiment.neutral
          else Sentiment.negative))
      ∧ (determineReviewSentiment env likes st).2 = bump st
      ∧ ((generateRatingFromSentiment env Sentiment.positive st).1 =
          if env.nextFloat st.seed st.counter < 0.6 then 5
          else if env.nextFloat st.seed st.counter < 0.9 then 4 else 3)
      ∧ ((generateRatingFromSentiment env Sentiment.neutral st).1 =
          if env.nextFloat st.seed st.counter < 0.5 then 3
          else if env.nextFloat st.seed st.counter < 0.75 then 4 else 2)
      ∧ ((generateRatingFromSentiment env Sentiment.negative st).1 =
          if env.nextFloat st.seed st.counter < 0.5 then 1
          else if env.nextFloat st.seed st.counter < 0.8 then 2 else 3)
      ∧ (∀ s : Sentiment, (generateRatingFromSentiment env s st).2 = bump st) := by
  intro env likes st
  obtain ⟨u, hu⟩ : ∃ u, env.nextFloat st.seed st.counter = u := ⟨_, rfl⟩
  refine ⟨rfl, rfl, ?_, ?_, ?_, fun s => by cases s <;> rfl⟩
  · have htot : weightedTotal ([(60, 5), (30, 4), (10, 3)] : List (ℚ × Int)) = 100 := by
      norm_num [weightedTotal]
    simp only [generateRatingFromSentiment, ratingChoicesFor, weightedArrayElement,
      drawFloat, positiveRatingChoices, htot, weightedWalk, hu]
    rcases lt_or_le u 0.6 with h1 | h1
    · rw [if_pos (show u * 100 < 60 by linarith), if_pos h1]
    · rw [if_neg (show ¬ u * 100 < 60 by intro h; linarith),
        if_neg (not_lt.mpr h1)]
      rcases lt_or_le u 0.9 with h2 | h2
      · rw [if_pos (show u * 100 - 60 < 30 by linarith), if_pos h2]
      · rw [if_neg (show ¬ u * 100 - 60 < 30 by intro h; linarith),
          if_neg (not_lt.mpr h2), ite_self]
  · have htot : weightedTotal ([(50, 3), (25, 4), (25, 2)] : List (ℚ × Int)) = 100 := by
      norm_num [weightedTotal]
    simp only [generateRatingFromSentiment, ratingChoicesFor, weightedArrayElement,
      drawFloat, neutralRatingChoices, htot, weightedWalk, hu]
    rcases lt_or_le u 0.5 with h1 | h1
    · rw [if_pos (show u * 100 < 50 by linarith), if_pos h1]
    · rw [if_neg (show ¬ u * 100 < 50 by intro h; linarith),
        if_neg (not_lt.mpr h1)]
      rcases lt_or_le u 0.75 with h2 | h2
      · rw [if_pos (show u * 100 - 50 < 25 by linarith), if_pos h2]
      · rw [if_neg (show ¬ u * 100 - 50 < 25 by intro h; linarith),
          if_neg (not_lt.mpr h2), ite_self]
  · have htot : weightedTotal ([(50, 1), (30, 2), (20, 3)] : List (ℚ × Int)) = 100 := by
      norm_num [weightedTotal]
    simp only [generateRatingFromSentiment, ratingChoicesFor, weightedArrayElement,
      drawFloat, negativeRatingChoices, htot, weightedWalk, hu]
    rcases lt_or_le u 0.5 with h1 | h1
    · rw [if_pos (show u * 100 < 50 by linarith), if_pos h1]
    · rw [if_neg (show ¬ u * 100 < 50 by intro h; linarith),
        if_neg (not_lt.mpr h1)]
      rcases lt_or_le u 0.8 with h2 | h2
      · rw [if_pos (show u * 100 - 50 < 30 by linarith), if_pos h2]
      · rw [if_neg (show ¬ u * 100 - 50 < 30 by intro h; linarith),
          if_neg (not_lt.mpr h2), ite_self]

/-- C10: a positive integer-valued target makes `generateExactCount`
return its floor and consume no draw, leaving the stream state
unchanged; a draw is consumed only when the fractional part of the
target is strictly positive. -/
theorem integer_target_consumes_no_draw :
    (∀ (env : FakerEnv) (m : Nat) (st : FakerState), 0 < m →
      generateExactCount env (m : ℚ) st = ((m : Int), st))
    ∧ (∀ (env : FakerEnv) (t : ℚ) (st : FakerState),
        (generateExactCount env t st).2 ≠ st → 0 < t - (⌊t⌋ : ℚ)) := by
  constructor
  · intro env m st hm
    have hne : ((m : ℚ)) ≠ 0 := Nat.cast_ne_zero.mpr (by omega)
    simp [generateExactCount, hne, Int.floor_natCast]
  · intro env t st h
    by_cases h0 : t = 0
    · simp [generateExactCount, h0] at h
    · by_cases hf : 0 < t - (⌊t⌋ : ℚ)
      · exact hf
      · rw [Int.self_sub_floor] at hf
        exact absurd (by simp [generateExactCount, h0, hf]) h

/-- Witness for the integer-target theorem: target 5 returns 5 without
touching the stream, and target one half has positive fractional
part. -/
theorem integer_target_consumes_no_draw_witness :
    generateExactCount constEnv ((5 : Nat) : ℚ) (FakerState.mk 0 0) =
      (((5 : Nat) : Int), FakerState.mk 0 0)
    ∧ 0 < (1/2 : ℚ) - (⌊(1/2 : ℚ)⌋ : ℚ) :=
  ⟨integer_target_consumes_no_draw.1 constEnv 5 (FakerState.mk 0 0) (by decide),
   integer_target_consumes_no_draw.2 constEnv (1/2) (FakerState.mk 0 0) (by
     have h1 : ¬ ((2:ℚ)⁻¹ = 0) := by norm_num
     have h2 : (0:ℚ) < Int.fract ((2:ℚ)⁻¹) := by norm_num [Int.fract]
     simp [generateExactCount, h1, h2, drawFloat, bump, FakerState.mk.injEq])⟩

/-- C4: `generateExactCount` returns 0 on a zero target without drawing;
otherwise it returns `floor(target) + 1` when the uniform draw is below
the fractional part and `floor(target)` otherwise, so the result is
always `floor(target)` or `floor(target) + 1`, at most one draw is
consumed, and the expected value of the result under a uniform draw on
the unit interval is exactly the target. -/
theorem exactCount_contract :
    (∀ (env : FakerEnv) (t : ℚ) (st : FakerState), 0 ≤ t →
      (t = 0 → generateExactCount env t st = (0, st))
      ∧ (generateExactCount env t st).1 =
          exactCountResult t (env.nextFloat st.seed st.counter)
      ∧ (t ≠ 0 → (generateExactCount env t st).1 =
          (if env.nextFloat st.seed st.counter < t - (⌊t⌋ : ℚ) then ⌊t⌋ + 1 else ⌊t⌋))
      ∧ ((generateExactCount env t st).1 = ⌊t⌋
          ∨ (generateExactCount env t st).1 = ⌊t⌋ + 1)
      ∧ ((generateExactCount env t st).2 = st
          ∨ (generateExactCount env t st).2 = bump st))
    ∧ (∀ t : ℝ, 0 ≤ t →
        ∫ u in (0:ℝ)..1, ((exactCountResult t u : Int) : ℝ) = t) := by
  constructor
  · intro env t st ht
    obtain ⟨u, hu⟩ : ∃ u, env.nextFloat st.seed st.counter = u := ⟨_, rfl⟩
    have hunn : 0 ≤ u := hu ▸ env.nextFloat_nonneg st.seed st.counter
    have hfnn : (0:ℚ) ≤ t - (⌊t⌋ : ℚ) := by
      have := Int.floor_le t
      linarith
    refine ⟨fun h0 => by simp [generateExactCount, h0], ?_, ?_, ?_, ?_⟩
    · by_cases h0 : t = 0
      · simp [generateExactCount, exactCountResult, h0]
      · by_cases hf : 0 < Int.fract t
        · simp [generateExactCount, exactCountResult, h0, hf, drawFloat]
        · simp [generateExactCount, exactCountResult, h0, hf]
    · intro h0
      by_cases hf : 0 < Int.fract t
      · simp [generateExactCount, h0, hf, drawFloat, hu]
      · have hf0 : Int.fract t = 0 :=
          le_antisymm (not_lt.mp hf) (Int.fract_nonneg t)
        rw [hu, show t - (⌊t⌋ : ℚ) = Int.fract t from Int.self_sub_floor t, hf0,
          if_neg (not_lt.mpr hunn)]
        simp [generateExactCount, h0, hf]
    · by_cases h0 : t = 0
      · left
        simp [generateExactCount, h0]
      · by_cases hf : 0 < Int.fract t
        · by_cases hlt : u < Int.fract t
          · right
            simp [generateExactCount, h0, hf, drawFloat, hu, hlt]
          · left
            simp [generateExactCount, h0, hf, drawFloat, hu, hlt]
        · left
          simp [generateExactCount, h0, hf]
    · by_cases h0 : t = 0
      · left
        simp [generateExactCount, h0]
      · by_cases hf : 0 < Int.fract t
        · right
          simp [generateExactCount, h0, hf, drawFloat]
        · left
          simp [generateExactCount, h0, hf]
  · intro t ht
    by_cases h0 : t = 0
    · simp [exactCountResult, h0]
    · by_cases hf : 0 < Int.fract t
      · have hpt : ∀ u : ℝ, ((exactCountResult t u : Int) : ℝ) =
            ((⌊t⌋ : Int) : ℝ) +
              Set.indicator (Set.Iio (Int.fract t)) (fun _ => (1:ℝ)) u := by
          intro u
          by_cases hul : u < Int.fract t
          · rw [Set.indicator_of_mem (Set.mem_Iio.mpr hul)]
            simp [exactCountResult, h0, hf, hul]
          · rw [Set.indicator_of_not_mem (by simpa [Set.mem_Iio] using hul)]
            simp [exactCountResult, h0, hf, hul]
        have hint : IntervalIntegrable
            (Set.indicator (Set.Iio (Int.fract t)) (fun _ => (1:ℝ)))
            MeasureTheory.volume 0 1 := by
          rw [intervalIntegrable_iff_integrableOn_Ioc_of_le (by norm_num)]
          exact (MeasureTheory.integrableOn_const.mpr
            (Or.inr (by simp [Real.volume_Ioc]))).indicator measurableSet_Iio
        have hmeas : (MeasureTheory.volume.restrict (Set.Ioc (0:ℝ) 1))
            (Set.Iio (Int.fract t)) = ENNReal.ofReal (Int.fract t) := by
          rw [MeasureTheory.Measure.restrict_apply measurableSet_Iio]
          have hset : Set.Iio (Int.fract t) ∩ Set.Ioc (0:ℝ) 1 =
              Set.Ioo 0 (Int.fract t) := by
            have hf1 : Int.fract t ≤ 1 := le_of_lt (Int.fract_lt_one t)
            ext x
            simp only [Set.mem_inter_iff, Set.mem_Iio, Set.mem_Ioc, Set.mem_Ioo]
            constructor
            · rintro ⟨hx1, hx2, hx3⟩
              exact ⟨hx2, hx1⟩
            · rintro ⟨hx1, hx2⟩
              exact ⟨hx2, hx1, by linarith⟩
          rw [hset, Real.volume_Ioo, sub_zero]
        calc ∫ u in (0:ℝ)..1, ((exactCountResult t u : Int) : ℝ)
            = ∫ u in (0:ℝ)..1, (((⌊t⌋ : Int) : ℝ) +
                Set.indicator (Set.Iio (Int.fract t)) (fun _ => (1:ℝ)) u) := by
              simp only [hpt]
          _ = (∫ _ in (0:ℝ)..1, ((⌊t⌋ : Int) : ℝ)) +
                ∫ u in (0:ℝ)..1,
                  Set.indicator (Set.Iio (Int.fract t)) (fun _ => (1:ℝ)) u := by
              exact intervalIntegral.integral_add intervalIntegrable_const hint
          _ = ((⌊t⌋ : Int) : ℝ) + Int.fract t := by
              rw [intervalIntegral.integral_const]
              congr 1
              · simp
              · rw [intervalIntegral.integral_of_le (by norm_num)]
                rw [MeasureTheory.integral_indicator_const (1:ℝ) measurableSet_Iio]
                rw [hmeas, ENNReal.toReal_ofReal (Int.fract_nonneg t)]
                simp
          _ = t := Int.floor_add_fract t
      · have hf0 : Int.fract t = 0 :=
          le_antisymm (not_lt.mp hf) (Int.fract_nonneg t)
        have hpt : ∀ u : ℝ, ((exactCountResult t u : Int) : ℝ) = ((⌊t⌋ : Int) : ℝ) := by
          intro u
          simp [exactCountResult, h0, hf]
        simp only [hpt]
        rw [intervalIntegral.integral_const]
        have hft : ((⌊t⌋ : Int) : ℝ) = t := by
          have := Int.floor_add_fract t
          rw [hf0] at this
          linarith
        simp [hft]

/-- Witness for the exact-count contract: target 4.7 at a concrete
environment returns the floor (the constant draw 0 is below the
fractional part 0.7, giving 4 + 1), and the expected value over the
unit interval at real target 4.7 is 4.7. -/
theorem exactCount_contract_witness :
    (generateExactCount constEnv (47/10 : ℚ) (FakerState.mk 0 0)).1 =
      (if constEnv.nextFloat (FakerState.mk 0 0).seed (FakerState.mk 0 0).counter <
          (47/10 : ℚ) - (⌊(47/10 : ℚ)⌋ : ℚ) then ⌊(47/10 : ℚ)⌋ + 1 else ⌊(47/10 : ℚ)⌋)
    ∧ ∫ u in (0:ℝ)..1, ((exactCountResult (47/10 : ℝ) u : Int) : ℝ) = (47/10 : ℝ) :=
  ⟨((exactCount_contract.1 constEnv (47/10) (FakerState.mk 0 0) (by norm_num)).2.2.1
      (by norm_num)),
   exactCount_contract.2 (47/10) (by norm_num)⟩

/-- Values of the weighted rating table selected by a sentiment. -/
def ratingValuesFor (s : Sentiment) : List Int :=
  (ratingChoicesFor s).map Prod.snd

lemma generateRating_mem (env : FakerEnv) (s : Sentiment) (st : FakerState) :
    (generateRatingFromSentiment env s st).1 ∈ ratingValuesFor s := by
  cases s <;>
    simp only [generateRatingFromSentiment, ratingChoicesFor, positiveRatingChoices,
      neutralRatingChoices, negativeRatingChoices, weightedArrayElement, weightedWalk,
      ratingValuesFor, List.map] <;>
    split_ifs <;> simp

lemma ratingValuesFor_bounds :
    ∀ (s : Sentiment) (x : Int), x ∈ ratingValuesFor s → 1 ≤ x ∧ x ≤ 5 := by
  intro s x hx
  cases s <;>
    simp [ratingValuesFor, ratingChoicesFor, positiveRatingChoices, neutralRatingChoices,
      negativeRatingChoices] at hx <;>
    rcases hx with h | h | h <;> omega

lemma pickList_mem {α : Type} (env : FakerEnv) (l : List α) (d : α) (st : FakerState)
    (h : 0 < l.length) : (pickList env l d st).1 ∈ l := by
  have hlt := env.pickIdx_lt st.seed st.counter l.length h
  simp only [pickList, List.getD_eq_getElem l d hlt]
  exact List.getElem_mem hlt

lemma reviewCorpusFor_length_pos (locale : String) (s : Sentiment) :
    0 < (reviewCorpusFor locale s).length := by
  unfold reviewCorpusFor
  split_ifs <;> cases s <;> decide

lemma enCorpus_disjoint : ∀ s1 s2 : Sentiment, s1 = s2 ∨
    ∀ t ∈ enCorpus s1, ¬ t ∈ enCorpus s2 := by
  intro s1 s2
  cases s1 <;> cases s2 <;> first
    | exact Or.inl rfl
    | exact Or.inr (by decide)

lemma deCorpus_disjoint : ∀ s1 s2 : Sentiment, s1 = s2 ∨
    ∀ t ∈ deCorpus s1, ¬ t ∈ deCorpus s2 := by
  intro s1 s2
  cases s1 <;> cases s2 <;> first
    | exact Or.inl rfl
    | exact Or.inr (by decide)

lemma jaCorpus_disjoint : ∀ s1 s2 : Sentiment, s1 = s2 ∨
    ∀ t ∈ jaCorpus s1, ¬ t ∈ jaCorpus s2 := by
  intro s1 s2
  cases s1 <;> cases s2 <;> first
    | exact Or.inl rfl
    | exact Or.inr (by decide)

lemma reviewCorpus_sentiment_unique (locale : String) (s1 s2 : Sentiment) (t : String)
    (h1 : t ∈ reviewCorpusFor locale s1) (h2 : t ∈ reviewCorpusFor locale s2) :
    s1 = s2 := by
  unfold reviewCorpusFor at h1 h2
  split_ifs at h1 h2
  · rcases enCorpus_disjoint s1 s2 with h | h
    · exact h
    · exact absurd h2 (h t h1)
  · rcases deCorpus_disjoint s1 s2 with h | h
    · exact h
    · exact absurd h2 (h t h1)
  · rcases jaCorpus_disjoint s1 s2 with h | h
    · exact h
    · exact absurd h2 (h t h1)
  · rcases enCorpus_disjoint s1 s2 with h | h
    · exact h
    · exact absurd h2 (h t h1)

lemma mem_generateReviews (env : FakerEnv) (p : GenParams) (likes : Int) :
    ∀ (n : Nat) (st : FakerState) (r : Review),
      r ∈ (generateReviews env p likes n st).1 →
      ∃ st2 : FakerState, r = (generateReview env p likes st2).1
  | 0, st, r => by simp [generateReviews]
  | n + 1, st, r => by
    intro hr
    simp only [generateReviews, List.mem_cons] at hr
    rcases hr with hr | hr
    · exact ⟨st, hr⟩
    · exact mem_generateReviews env p likes n _ r hr

lemma generateBook_reviews_eq (env : FakerEnv) (p : GenParams) (index : Int)
    (st : FakerState) :
    ∃ (likes : Int) (n : Nat) (st2 : FakerState),
      (generateBook env p index st).1.reviews = (generateReviews env p likes n st2).1 :=
  ⟨_, _, _, rfl⟩

/-- C6: every review of every generated record has an integer star
rating between 1 and 5, and its rating and text come from one sampled
sentiment: the rating belongs to the weighted table of some sentiment
and the text to the locale- and sentiment-keyed corpus of exactly that
same sentiment (the corpora of distinct sentiments are disjoint). -/
theorem review_rating_text_jointly_sampled :
    ∀ (env : FakerEnv) (p : GenParams) (index : Int) (st : FakerState) (r : Review),
      r ∈ (generateBook env p index st).1.reviews →
      (1 ≤ r.rating ∧ r.rating ≤ 5)
      ∧ ∃ s : Sentiment, r.rating ∈ ratingValuesFor s
          ∧ r.text ∈ reviewCorpusFor p.locale s
          ∧ ∀ s2 : Sentiment, r.text ∈ reviewCorpusFor p.locale s2 → s2 = s := by
  intro env p index st r hr
  obtain ⟨likes, n, st2, heq⟩ := generateBook_reviews_eq env p index st
  rw [heq] at hr
  obtain ⟨st3, hst3⟩ := mem_generateReviews env p likes n st2 r hr
  subst hst3
  have hmem : (generateReview env p likes st3).1.rating ∈
      ratingValuesFor (determineReviewSentiment env likes st3).1 :=
    generateRating_mem env _ _
  have htmem : (generateReview env p likes st3).1.text ∈
      reviewCorpusFor p.locale (determineReviewSentiment env likes st3).1 :=
    pickList_mem env _ "" _ (reviewCorpusFor_length_pos p.locale _)
  refine ⟨ratingValuesFor_bounds _ _ hmem, _, hmem, htmem, ?_⟩
  intro s2 h2
  exact reviewCorpus_sentiment_unique p.locale s2 _ _ h2 htmem

/-- Fixed parameters whose like target is zero and whose review target
is exactly one, used by the joint-sampling witness. -/
def reviewParams : GenParams := GenParams.mk "en-US" 1 0 1 "0" "1"

/-- The single review of the record generated from `reviewParams` at
index 1 (the stream reaches position 8 before the review loop). -/
def sampleReview : Review :=
  (generateReview constEnv reviewParams 0
    (FakerState.mk (uniqueSeed reviewParams 1) 8)).1

lemma generateExactCount_zero (env : FakerEnv) (st : FakerState) :
    generateExactCount env (0:ℚ) st = (0, st) := by
  simp [generateExactCount]

lemma generateExactCount_one (env : FakerEnv) (st : FakerState) :
    generateExactCount env (1:ℚ) st = (1, st) := by
  norm_num [generateExactCount]

lemma sampleReview_mem :
    sampleReview ∈ (generateBook constEnv reviewParams 1 (FakerState.mk 0 0)).1.reviews := by
  have hrev : (generateBook constEnv reviewParams 1 (FakerState.mk 0 0)).1.reviews =
      [sampleReview] := by
    simp only [generateBook, setSeedForIndex, fakerSeed, sampleReview, reviewParams,
      generateBookTitle, titleTemplatesFor, enTitleTemplates, pickList, constEnv,
      drawCapAdjective, drawCapNoun, drawAdjective, drawNoun, drawInt, drawAuthors,
      drawFullName, drawCompanyName, publisherTypes, drawDateBetween,
      generateExactCount_zero, generateExactCount_one, generateReviews, bump]
    norm_num
  rw [hrev]
  exact List.mem_singleton.mpr rfl

/-- Witness for the joint-sampling theorem: the concrete review of the
record generated from `reviewParams` at index 1 has a rating in 1 to 5
drawn jointly with its text from one sentiment. -/
theorem review_rating_text_jointly_sampled_witness :
    (1 ≤ sampleReview.rating ∧ sampleReview.rating ≤ 5)
    ∧ ∃ s : Sentiment, sampleReview.rating ∈ ratingValuesFor s
        ∧ sampleReview.text ∈ reviewCorpusFor reviewParams.locale s
        ∧ ∀ s2 : Sentiment,
            sampleReview.text ∈ reviewCorpusFor reviewParams.locale s2 → s2 = s :=
  review_rating_text_jointly_sampled constEnv reviewParams 1 (FakerState.mk 0 0)
    sampleReview sampleReview_mem

end TestBookStore
